import Mathlib

/-!
Verification of the lightrag-mcp repository: a shallow embedding of the
response-normalization layer (server.format_response), the tool dispatch
functions (server.py), the operation facade (lightrag_client.py), the
process supervisor (process_manager.py) and the application lifecycle
(server.init_lightrag, main.main), together with theorems settling the
frozen claims about them.
-/

namespace LightRagMcp

/-- Embedding of the Python values that cross the format_response boundary:
the absence value None, strings, dictionaries (ordered association lists,
as produced by JSON decoding), and attribute-bearing objects. An object
carries three optional mapping views, in the order format_response probes
them: a callable dict method, an instance attribute dictionary, and a
callable to_dict method; a missing view models hasattr returning False. -/
inductive PyVal where
  | pyNone : PyVal
  | pyStr : String → PyVal
  | pyDict : List (String × PyVal) → PyVal
  | pyObj : Option (List (String × PyVal)) → Option (List (String × PyVal)) →
      Option (List (String × PyVal)) → PyVal

/-- Embedding of the Python str() conversion as used by format_response.
The branches the claims depend on are exact: str(None) is the string None,
and str of a string is the string itself. The renderings of dictionaries
and objects are abstracted to markers, since no claim inspects them. -/
def pyStrRepr : PyVal → String
  | PyVal.pyNone => "None"
  | PyVal.pyStr s => s
  | PyVal.pyDict _ => "<dict>"
  | PyVal.pyObj _ _ _ => "<object>"

/-- Embedding of server.format_response (server.py lines 19-48): the error
branch wraps a string message, or the str() of a non-string, under the
error key; the success branch passes a dict through unchanged, otherwise
probes the dict method, then the instance attribute dictionary, then the
to_dict method, and finally falls back to the str() representation. -/
def format_response (result : PyVal) (is_error : Bool) : PyVal :=
  if is_error then
    match result with
    | PyVal.pyStr s =>
        PyVal.pyDict [("status", PyVal.pyStr "error"), ("error", PyVal.pyStr s)]
    | r =>
        PyVal.pyDict [("status", PyVal.pyStr "error"), ("error", PyVal.pyStr (pyStrRepr r))]
  else
    match result with
    | PyVal.pyDict fields =>
        PyVal.pyDict [("status", PyVal.pyStr "success"), ("response", PyVal.pyDict fields)]
    | PyVal.pyObj (some d) _ _ =>
        PyVal.pyDict [("status", PyVal.pyStr "success"), ("response", PyVal.pyDict d)]
    | PyVal.pyObj none (some d) _ =>
        PyVal.pyDict [("status", PyVal.pyStr "success"), ("response", PyVal.pyDict d)]
    | PyVal.pyObj none none (some d) =>
        PyVal.pyDict [("status", PyVal.pyStr "success"), ("response", PyVal.pyDict d)]
    | r =>
        PyVal.pyDict [("status", PyVal.pyStr "success"), ("response", PyVal.pyStr (pyStrRepr r))]

/-- Recognizer for the success envelope shape produced by the dispatch
layer: a two-field dictionary with status success and a response field. -/
def isSuccessShape : PyVal → Bool
  | PyVal.pyDict [("status", PyVal.pyStr "success"), ("response", _)] => true
  | _ => false

/-- Recognizer for the error envelope shape produced by the dispatch
layer: a two-field dictionary with status error and a string error field. -/
def isErrorShape : PyVal → Bool
  | PyVal.pyDict [("status", PyVal.pyStr "error"), ("error", PyVal.pyStr _)] => true
  | _ => false

/-- A well-formed envelope is exactly one of the two shapes. -/
def isEnvelope (v : PyVal) : Bool :=
  isSuccessShape v || isErrorShape v

/-- Embedding of the exceptions the transport layer can raise: a non-2xx
response preserved with status code and raw body (errors.UnexpectedStatus),
or a connection, timeout or DNS failure raised by the HTTP library. -/
inductive PyExn where
  | unexpectedStatus : Nat → String → PyExn
  | transportError : String → PyExn

/-- Embedding of the Python str() of an exception, as interpolated into
the error messages of the dispatch layer. -/
def exnMessage : PyExn → String
  | PyExn.unexpectedStatus c b => "Unexpected status code: " ++ toString c ++ " " ++ b
  | PyExn.transportError m => m

/-- Embedding of LightRAGClient dot call_api (lightrag_client.py lines
91-107): the outcome of the underlying API function is taken as input; on
an exception the method logs through handle_exception and re-raises the
same exception, so the outcome passes through unchanged. -/
def call_api (outcome : Except PyExn PyVal) : Except PyExn PyVal :=
  match outcome with
  | Except.ok v => Except.ok v
  | Except.error e => Except.error e

/-- Embedding of LightRAGClient dot get_health (lightrag_client.py lines
391-403): it delegates to call_api with no exception handling of its own,
so a transport failure propagates to the caller as a raised exception. -/
def get_health (outcome : Except PyExn PyVal) : Except PyExn PyVal :=
  call_api outcome

/-- Embedding of the tool check_lightrag_health (server.py lines 416-443):
the facade call is wrapped in a try block; a raised exception is converted
into the error envelope with the operation message prefix, a returned
value is passed to format_response with no None check. -/
def check_lightrag_health (outcome : Except PyExn PyVal) : PyVal :=
  match get_health outcome with
  | Except.ok v => format_response v false
  | Except.error e =>
      format_response
        (PyVal.pyStr ("Ошибка при проверке состояния LightRAG API: " ++ exnMessage e)) true

/-- Recognizer for the Python identity test result is None, used by the
tool bodies that reject an absent facade result. -/
def isNoneVal : PyVal → Bool
  | PyVal.pyNone => true
  | _ => false

/-- Embedding of the tool query_document (server.py lines 96-167): a None
result is mapped to the error envelope with a fixed message; any other
result is normalized as success; a raised exception is converted to the
error envelope with the operation message prefix. -/
def query_document (outcome : Except PyExn PyVal) : PyVal :=
  match outcome with
  | Except.ok v =>
      if isNoneVal v then
        format_response (PyVal.pyStr "Получен пустой ответ от LightRAG API") true
      else format_response v false
  | Except.error e =>
      format_response
        (PyVal.pyStr ("Ошибка при выполнении запроса к LightRAG API: " ++ exnMessage e)) true

/-- Embedding of the tool insert_document (server.py lines 170-205): same
pattern as query_document with its own None message. -/
def insert_document (outcome : Except PyExn PyVal) : PyVal :=
  match outcome with
  | Except.ok v =>
      if isNoneVal v then format_response (PyVal.pyStr "Не удалось добавить текст") true
      else format_response v false
  | Except.error e =>
      format_response (PyVal.pyStr ("Ошибка при добавлении текста: " ++ exnMessage e)) true

/-- Embedding of the tool upload_document (server.py lines 208-239): the
facade result is passed to format_response with no None check. -/
def upload_document (outcome : Except PyExn PyVal) : PyVal :=
  match outcome with
  | Except.ok v => format_response v false
  | Except.error e =>
      format_response (PyVal.pyStr ("Ошибка при загрузке файла: " ++ exnMessage e)) true

/-- Embedding of the tool insert_file (server.py lines 242-269): the
facade result is passed to format_response with no None check. -/
def insert_file (outcome : Except PyExn PyVal) : PyVal :=
  match outcome with
  | Except.ok v => format_response v false
  | Except.error e =>
      format_response
        (PyVal.pyStr ("Ошибка при добавлении файла в LightRAG API: " ++ exnMessage e)) true

/-- Embedding of the tool scan_for_new_documents (server.py lines
304-328): the facade result is passed to format_response with no None
check. -/
def scan_for_new_documents (outcome : Except PyExn PyVal) : PyVal :=
  match outcome with
  | Except.ok v => format_response v false
  | Except.error e =>
      format_response (PyVal.pyStr ("Ошибка при сканировании директории: " ++ exnMessage e)) true

/-- Embedding of the tool get_documents (server.py lines 331-357): a None
result is mapped to the error envelope. -/
def get_documents (outcome : Except PyExn PyVal) : PyVal :=
  match outcome with
  | Except.ok v =>
      if isNoneVal v then
        format_response (PyVal.pyStr "Не удалось получить список документов") true
      else format_response v false
  | Except.error e =>
      format_response
        (PyVal.pyStr ("Ошибка при получении списка документов: " ++ exnMessage e)) true

/-- Embedding of the tool get_pipeline_status (server.py lines 360-386): a
None result is mapped to the error envelope. -/
def get_pipeline_status (outcome : Except PyExn PyVal) : PyVal :=
  match outcome with
  | Except.ok v =>
      if isNoneVal v then
        format_response (PyVal.pyStr "Не удалось получить статус пайплайна") true
      else format_response v false
  | Except.error e =>
      format_response
        (PyVal.pyStr ("Ошибка при получении статуса пайплайна: " ++ exnMessage e)) true

/-- Embedding of the tool get_graph_labels (server.py lines 389-413): the
facade result is passed to format_response with no None check. -/
def get_graph_labels (outcome : Except PyExn PyVal) : PyVal :=
  match outcome with
  | Except.ok v => format_response v false
  | Except.error e =>
      format_response (PyVal.pyStr ("Ошибка при получении меток графа: " ++ exnMessage e)) true

/-- Argument type of the facade insert_text: the Python union of a single
string and a list of strings. -/
inductive TextArg where
  | single : String → TextArg
  | listOf : List String → TextArg

/-- Routes an insert_text call can take: the single-document insert route
receiving one text, or the batch-text route receiving a list of texts. -/
inductive InsertRoute where
  | singleDoc : String → InsertRoute
  | batchTexts : List String → InsertRoute

/-- HTTP path of each insert route, as wired by the generated bindings. -/
def routePath : InsertRoute → String
  | InsertRoute.singleDoc _ => "/documents/text"
  | InsertRoute.batchTexts _ => "/documents/texts"

/-- Embedding of LightRAGClient dot insert_text (lightrag_client.py lines
168-202): an isinstance list test chooses the batch-text route, passing
the list unchanged as the texts field; any non-list argument is sent to
the single-document route. There is no emptiness validation. -/
def insert_text : TextArg → InsertRoute
  | TextArg.single s => InsertRoute.singleDoc s
  | TextArg.listOf xs => InsertRoute.batchTexts xs

/-- One directory entry as seen by the batch gathering loop: its name, a
flag telling whether it is a regular file, and a flag telling whether the
open call on it succeeds. -/
structure DirEntry where
  name : String
  isFile : Bool
  readable : Bool

/-- File-handling events emitted while gathering batch payloads: a handle
opened, a handle closed, a warning logged for a file that could not be
opened. -/
inductive FileEvent where
  | opened : String → FileEvent
  | closed : String → FileEvent
  | warned : String → FileEvent

/-- Result of the gathering loop of insert_batch: the payload file names
in directory iteration order, the names warned about, and the full
open/close/warn event trace. -/
structure GatherResult where
  files : List String
  warnings : List String
  events : List FileEvent

/-- Embedding of the gathering loop of LightRAGClient dot insert_batch
(lightrag_client.py lines 298-307): every regular file is opened inside a
with block (so the handle is closed when the block exits) and appended to
the payload list; a failing open logs one warning and is skipped;
non-file entries are ignored. -/
def gather_files : List DirEntry → GatherResult
  | [] => { files := [], warnings := [], events := [] }
  | e :: rest =>
      let r := gather_files rest
      if e.isFile then
        if e.readable then
          { files := e.name :: r.files, warnings := r.warnings,
            events := FileEvent.opened e.name :: FileEvent.closed e.name :: r.events }
        else
          { files := r.files, warnings := e.name :: r.warnings,
            events := FileEvent.warned e.name :: r.events }
      else r

/-- Names of the readable regular files of a directory listing, in
iteration order. -/
def readableFiles (entries : List DirEntry) : List String :=
  (entries.filter (fun e => e.isFile && e.readable)).map DirEntry.name

/-- Names of the unreadable regular files of a directory listing, in
iteration order. -/
def unreadableFiles (entries : List DirEntry) : List String :=
  (entries.filter (fun e => e.isFile && !e.readable)).map DirEntry.name

/-- Outcome of the facade insert_batch after gathering: the distinguished
empty result (return None, no request), or one batch request carrying the
gathered payload names. -/
inductive BatchOutcome where
  | noFiles : BatchOutcome
  | batchCall : List String → BatchOutcome

/-- Embedding of the decision part of LightRAGClient dot insert_batch
(lightrag_client.py lines 309-324): an empty payload list logs a warning
and returns None without contacting the API; otherwise a single batch
request is issued carrying all gathered payloads. -/
def insert_batch (entries : List DirEntry) : BatchOutcome :=
  let r := gather_files entries
  if r.files.isEmpty then BatchOutcome.noFiles else BatchOutcome.batchCall r.files

/-- Number of HTTP requests insert_batch issues for a directory listing. -/
def insert_batch_http_calls (entries : List DirEntry) : Nat :=
  match insert_batch entries with
  | BatchOutcome.noFiles => 0
  | BatchOutcome.batchCall _ => 1

/-- Embedding of the facade result of insert_batch as the tool sees it:
the noFiles outcome surfaces as the Python absence value None, a batch
call surfaces the API outcome (which may itself raise). -/
def insert_batch_facade (entries : List DirEntry) (apiOutcome : Except PyExn PyVal) :
    Except PyExn PyVal :=
  match insert_batch entries with
  | BatchOutcome.noFiles => Except.ok PyVal.pyNone
  | BatchOutcome.batchCall _ => call_api apiOutcome

/-- Embedding of the tool insert_batch (server.py lines 272-301): a None
facade result is mapped to the error envelope with a fixed message; other
results are normalized as success; a raised exception is converted to the
error envelope. -/
def insert_batch_tool (outcome : Except PyExn PyVal) : PyVal :=
  match outcome with
  | Except.ok v =>
      if isNoneVal v then
        format_response (PyVal.pyStr "Не удалось добавить документы из директории") true
      else format_response v false
  | Except.error e =>
      format_response
        (PyVal.pyStr
          ("Ошибка при добавлении документов из директории в LightRAG API: " ++ exnMessage e))
        true

/-- Names carried by the opened events of a trace, in order. -/
def openedNames : List FileEvent → List String
  | [] => []
  | FileEvent.opened n :: rest => n :: openedNames rest
  | _ :: rest => openedNames rest

/-- Names carried by the closed events of a trace, in order. -/
def closedNames : List FileEvent → List String
  | [] => []
  | FileEvent.closed n :: rest => n :: closedNames rest
  | _ :: rest => closedNames rest

/-- One supervised subprocess as the manager sees it: its pid, whether the
poll call currently reports it alive, and two environment-determined
behaviors consumed by stop: whether it exits within the three second grace
period after the termination signal, and whether the termination signal
can be delivered at all (a False value models the ProcessLookupError path
of an already-gone process). -/
structure SupervisedProcess where
  pid : Nat
  alive : Bool
  exitsWithinGrace : Bool
  termDeliverable : Bool

/-- State of LightRAGProcessManager (process_manager.py line 19): the
optional Popen handle. -/
structure ProcessManager where
  process : Option SupervisedProcess

/-- Observable actions of the process manager, in the order the code
performs them: subprocess spawn, shutdown hook registration, launch of the
two drain threads, logging, signal delivery, waits and stream closing. -/
inductive MgrAction where
  | warnAlreadyRunning : MgrAction
  | spawnProcess : Nat → MgrAction
  | registerStopHook : MgrAction
  | startDrainThreads : MgrAction
  | logStarted : Nat → MgrAction
  | sigterm : Nat → MgrAction
  | waitGraceSeconds : Nat → MgrAction
  | warnForcedKill : MgrAction
  | sigkill : Nat → MgrAction
  | waitUntilExit : MgrAction
  | logStopError : MgrAction
  | closeStdoutStream : MgrAction
  | closeStderrStream : MgrAction
  | unregisterStopHook : MgrAction
  | logStopped : MgrAction

/-- Embedding of LightRAGProcessManager dot is_running (process_manager.py
lines 126-137): False when no handle is held, otherwise the result of a
fresh non-blocking poll of the subprocess. -/
def is_running (m : ProcessManager) : Bool :=
  match m.process with
  | none => false
  | some p => p.alive

/-- Embedding of LightRAGProcessManager dot start (process_manager.py
lines 21-59): when a handle is held and the poll reports it alive, the
call only logs a warning and returns the existing handle; otherwise it
spawns a new subprocess (alive by construction), registers the shutdown
hook, starts the two output drain threads and returns the new handle. The
pid and the behavior flags of the spawned process are parameters of the
embedding, standing for what the operating system produces. -/
def start (m : ProcessManager) (pid : Nat) (exitsWithinGrace termDeliverable : Bool) :
    ProcessManager × SupervisedProcess × List MgrAction :=
  match m.process with
  | some p =>
      if p.alive then (m, p, [MgrAction.warnAlreadyRunning])
      else
        let np : SupervisedProcess :=
          { pid := pid, alive := true, exitsWithinGrace := exitsWithinGrace,
            termDeliverable := termDeliverable }
        ({ process := some np }, np,
          [MgrAction.spawnProcess pid, MgrAction.registerStopHook,
           MgrAction.startDrainThreads, MgrAction.logStarted pid])
  | none =>
      let np : SupervisedProcess :=
        { pid := pid, alive := true, exitsWithinGrace := exitsWithinGrace,
          termDeliverable := termDeliverable }
      ({ process := some np }, np,
        [MgrAction.spawnProcess pid, MgrAction.registerStopHook,
         MgrAction.startDrainThreads, MgrAction.logStarted pid])

/-- Number of subprocess spawns recorded in a manager action trace. -/
def spawnCount : List MgrAction → Nat
  | [] => 0
  | MgrAction.spawnProcess _ :: rest => spawnCount rest + 1
  | _ :: rest => spawnCount rest

/-- Embedding of LightRAGProcessManager dot stop (process_manager.py lines
93-124): when no handle is held or the poll reports the process dead, the
call returns immediately with no action at all; otherwise it sends the
termination signal inside a try block (a delivery failure is caught and
logged as an error), waits up to three seconds, on timeout logs a warning,
sends the kill signal and blocks on an unbounded wait; in every running
case it then closes both output streams, unregisters the shutdown hook,
logs completion and clears the handle. -/
def stop (m : ProcessManager) : ProcessManager × List MgrAction :=
  match m.process with
  | none => (m, [])
  | some p =>
      if p.alive then
        let sigPart : List MgrAction :=
          if p.termDeliverable then
            if p.exitsWithinGrace then
              [MgrAction.sigterm p.pid, MgrAction.waitGraceSeconds 3]
            else
              [MgrAction.sigterm p.pid, MgrAction.waitGraceSeconds 3,
               MgrAction.warnForcedKill, MgrAction.sigkill p.pid, MgrAction.waitUntilExit]
          else [MgrAction.sigterm p.pid, MgrAction.logStopError]
        ({ process := none },
          sigPart ++
            [MgrAction.closeStdoutStream, MgrAction.closeStderrStream,
             MgrAction.unregisterStopHook, MgrAction.logStopped])
      else (m, [])

/-- Test for the two signal-delivery actions in a manager action trace. -/
def isSignalAction : MgrAction → Bool
  | MgrAction.sigterm _ => true
  | MgrAction.sigkill _ => true
  | _ => false

/-- Observable actions of the application lifecycle in server.py and
main.py: client construction, the startup health probe and its three log
outcomes, the initialized flag assignment, the MCP server run, the two
top-level exception handlers of main, the process exit, and the client
close call (defined so that its absence from every trace is statable). -/
inductive LcAction where
  | createClient : LcAction
  | healthCall : LcAction
  | logHealthy : LcAction
  | logWarnStatus : LcAction
  | logErrUnavailable : LcAction
  | setInitialized : LcAction
  | closeClient : LcAction
  | parseArgs : LcAction
  | makeDirs : LcAction
  | runMcp : LcAction
  | logKeyboardInterrupt : LcAction
  | logStartupError : LcAction
  | exitNonzero : LcAction

/-- Association list lookup over the fields of an embedded dictionary,
modelling the Python dict get method. -/
def dictGet (fields : List (String × PyVal)) (key : String) : Option PyVal :=
  match fields with
  | [] => none
  | (k, v) :: rest => if k = key then some v else dictGet rest key

/-- Log action the startup probe of init_lightrag emits for a given probe
outcome (server.py lines 74-88): a dictionary result with status ok logs
the healthy message, any other dictionary logs the warning; a non-mapping
result makes the get attribute access raise, which the surrounding except
block catches and logs as unavailability, as it also does for a raised
transport failure. -/
def healthProbeLog (health : Except PyExn PyVal) : LcAction :=
  match health with
  | Except.ok (PyVal.pyDict fields) =>
      match dictGet fields "status" with
      | some (PyVal.pyStr s) => if s = "ok" then LcAction.logHealthy else LcAction.logWarnStatus
      | _ => LcAction.logWarnStatus
  | Except.ok _ => LcAction.logErrUnavailable
  | Except.error _ => LcAction.logErrUnavailable

/-- Embedding of server.init_lightrag (server.py lines 57-90): a second
call is a no-op once the initialized flag is set; a first call constructs
the client, performs the best-effort health probe (every probe failure is
caught and logged, never re-raised) and sets the flag. No branch closes
the client. -/
def init_lightrag (initialized : Bool) (health : Except PyExn PyVal) : List LcAction :=
  if initialized then []
  else
    [LcAction.createClient, LcAction.healthCall, healthProbeLog health,
     LcAction.setInitialized]

/-- Outcome of the blocking MCP server run call inside main. -/
inductive RunOutcome where
  | normal : RunOutcome
  | keyboardInterrupt : RunOutcome
  | raised : String → RunOutcome

/-- Embedding of main.main (main.py lines 65-92): argument parsing,
directory creation and the server run happen inside a try block;
KeyboardInterrupt is logged and swallowed, any other exception is logged
and turned into a nonzero process exit. No branch closes the client. -/
def main_trace (o : RunOutcome) : List LcAction :=
  [LcAction.parseArgs, LcAction.makeDirs, LcAction.runMcp] ++
    (match o with
     | RunOutcome.normal => []
     | RunOutcome.keyboardInterrupt => [LcAction.logKeyboardInterrupt]
     | RunOutcome.raised _ => [LcAction.logStartupError, LcAction.exitNonzero])

/-- State of the embedded HTTP client held by the facade: only whether its
connection resources have been released. -/
structure HttpClientState where
  closed : Bool

/-- Embedding of LightRAGClient dot close (lightrag_client.py lines
405-408): awaits aclose on the wrapped asynchronous HTTP client, releasing
its connection resources. -/
def client_close (c : HttpClientState) : HttpClientState :=
  { c with closed := true }

/-- Enumeration of the facade operations, used to state per-operation
timeout facts. -/
inductive ApiOperation where
  | query : ApiOperation
  | insertTextSingle : ApiOperation
  | insertTexts : ApiOperation
  | uploadDocumentOp : ApiOperation
  | insertFileOp : ApiOperation
  | insertBatchOp : ApiOperation
  | scanOp : ApiOperation
  | getDocumentsOp : ApiOperation
  | getPipelineStatusOp : ApiOperation
  | getGraphLabelsOp : ApiOperation
  | getHealthOp : ApiOperation

/-- Configuration of the single wrapped AuthenticatedClient instance as
constructed by LightRAGClient dot init (lightrag_client.py lines 57-72):
base url, bearer token and a disabled ssl verification flag are passed;
no timeout argument is passed. Modelled from the spec: the
AuthenticatedClient class itself (generated bindings, absent from the
sources) accepts an optional per-call timeout which stays unset when the
constructor receives none, so one library default applies uniformly. -/
structure AuthenticatedClientCfg where
  base_url : String
  token : String
  verify_ssl : Bool
  timeout : Option Nat

/-- Embedding of LightRAGClient dot init (lightrag_client.py lines 57-72):
the single client is built from base url and api key with ssl verification
disabled and no timeout argument. -/
def lightrag_client_init (base_url api_key : String) : AuthenticatedClientCfg :=
  { base_url := base_url, token := api_key, verify_ssl := false, timeout := none }

/-- Timeout governing one outbound call: every facade method passes the
shared client to the generated binding with no per-call timeout override
(lightrag_client.py lines 109-403), so the client-level setting applies to
every operation alike. -/
def perCallTimeout (cfg : AuthenticatedClientCfg) (_op : ApiOperation) : Option Nat :=
  cfg.timeout

/-- Every success-branch normalization yields the success envelope shape. -/
theorem format_response_success_shape (r : PyVal) :
    isSuccessShape (format_response r false) = true := by
  cases r with
  | pyNone => rfl
  | pyStr s => rfl
  | pyDict fields => rfl
  | pyObj d i t => cases d <;> cases i <;> cases t <;> rfl

/-- Every error-branch normalization yields the error envelope shape. -/
theorem format_response_error_shape (r : PyVal) :
    isErrorShape (format_response r true) = true := by
  cases r <;> rfl

/-- The success branch never yields the error envelope shape. -/
theorem format_response_success_not_error (r : PyVal) :
    isErrorShape (format_response r false) = false := by
  cases r with
  | pyNone => rfl
  | pyStr s => rfl
  | pyDict fields => rfl
  | pyObj d i t => cases d <;> cases i <;> cases t <;> rfl

/-- The error branch never yields the success envelope shape. -/
theorem format_response_error_not_success (r : PyVal) :
    isSuccessShape (format_response r true) = false := by
  cases r <;> rfl

/-- C5: for every successful operation whose payload is a key-value
mapping, normalization is a round-trip identity (the fields pass through
unchanged under the response key); object payloads are converted through
the probed mapping views in order, other payloads fall back to their str()
representation; and every envelope format_response produces is exactly one
of the success shape and the error shape. -/
theorem C5_format_response_normalization :
    (∀ fields : List (String × PyVal),
      format_response (PyVal.pyDict fields) false
        = PyVal.pyDict [("status", PyVal.pyStr "success"), ("response", PyVal.pyDict fields)])
    ∧ (∀ d i t, format_response (PyVal.pyObj (some d) i t) false
        = PyVal.pyDict [("status", PyVal.pyStr "success"), ("response", PyVal.pyDict d)])
    ∧ (∀ d t, format_response (PyVal.pyObj none (some d) t) false
        = PyVal.pyDict [("status", PyVal.pyStr "success"), ("response", PyVal.pyDict d)])
    ∧ (∀ d, format_response (PyVal.pyObj none none (some d)) false
        = PyVal.pyDict [("status", PyVal.pyStr "success"), ("response", PyVal.pyDict d)])
    ∧ (∀ s, format_response (PyVal.pyStr s) false
        = PyVal.pyDict [("status", PyVal.pyStr "success"), ("response", PyVal.pyStr s)])
    ∧ (∀ r b, isEnvelope (format_response r b) = true)
    ∧ (∀ r b, isSuccessShape (format_response r b) = !isErrorShape (format_response r b)) := by
  refine ⟨fun fields => rfl, fun d i t => rfl, fun d t => rfl, fun d => rfl,
    fun s => rfl, ?_, ?_⟩
  · intro r b
    cases b
    · simp [isEnvelope, format_response_success_shape]
    · simp [isEnvelope, format_response_error_shape]
  · intro r b
    cases b
    · simp [format_response_success_shape, format_response_success_not_error]
    · simp [format_response_error_shape, format_response_error_not_success]

/-- C10: on a successful facade call returning the absence value None, the
tools disagree: query_document, insert_document, get_documents,
get_pipeline_status and insert_batch map None to the error envelope, while
upload_document, insert_file, scan_for_new_documents, get_graph_labels and
check_lightrag_health pass None through format_response, which yields the
success envelope wrapping the string None. -/
theorem C10_none_handling_disagreement :
    query_document (Except.ok PyVal.pyNone)
      = PyVal.pyDict [("status", PyVal.pyStr "error"),
          ("error", PyVal.pyStr "Получен пустой ответ от LightRAG API")]
    ∧ insert_document (Except.ok PyVal.pyNone)
      = PyVal.pyDict [("status", PyVal.pyStr "error"),
          ("error", PyVal.pyStr "Не удалось добавить текст")]
    ∧ get_documents (Except.ok PyVal.pyNone)
      = PyVal.pyDict [("status", PyVal.pyStr "error"),
          ("error", PyVal.pyStr "Не удалось получить список документов")]
    ∧ get_pipeline_status (Except.ok PyVal.pyNone)
      = PyVal.pyDict [("status", PyVal.pyStr "error"),
          ("error", PyVal.pyStr "Не удалось получить статус пайплайна")]
    ∧ insert_batch_tool (Except.ok PyVal.pyNone)
      = PyVal.pyDict [("status", PyVal.pyStr "error"),
          ("error", PyVal.pyStr "Не удалось добавить документы из директории")]
    ∧ upload_document (Except.ok PyVal.pyNone)
      = PyVal.pyDict [("status", PyVal.pyStr "success"), ("response", PyVal.pyStr "None")]
    ∧ insert_file (Except.ok PyVal.pyNone)
      = PyVal.pyDict [("status", PyVal.pyStr "success"), ("response", PyVal.pyStr "None")]
    ∧ scan_for_new_documents (Except.ok PyVal.pyNone)
      = PyVal.pyDict [("status", PyVal.pyStr "success"), ("response", PyVal.pyStr "None")]
    ∧ get_graph_labels (Except.ok PyVal.pyNone)
      = PyVal.pyDict [("status", PyVal.pyStr "success"), ("response", PyVal.pyStr "None")]
    ∧ check_lightrag_health (Except.ok PyVal.pyNone)
      = PyVal.pyDict [("status", PyVal.pyStr "success"), ("response", PyVal.pyStr "None")] :=
  ⟨rfl, rfl, rfl, rfl, rfl, rfl, rfl, rfl, rfl, rfl⟩

/-- C1 counterexample: on a connection failure the facade method
get_health does not return a degraded-status result object; it propagates
the transport failure unchanged as a raised exception (the error value of
the embedding), contradicting the claim that get_health never propagates. -/
theorem C1_counterexample_get_health_propagates :
    get_health (Except.error (PyExn.transportError "Connection refused"))
      = Except.error (PyExn.transportError "Connection refused") := rfl

/-- C1 (amended): the tool check_lightrag_health never raises — for every
outcome of the underlying call it returns a well-formed envelope; on a
raised failure it returns the error envelope carrying the operation
message prefix and the exception text (not a message field reading service
unavailable); a returned value passes through format_response unchanged. The
facade method get_health itself propagates failures to its caller. -/
theorem C1_check_health_never_raises (outcome : Except PyExn PyVal) :
    isEnvelope (check_lightrag_health outcome) = true
    ∧ (∀ e : PyExn, check_lightrag_health (Except.error e)
        = PyVal.pyDict [("status", PyVal.pyStr "error"),
            ("error", PyVal.pyStr ("Ошибка при проверке состояния LightRAG API: "
              ++ exnMessage e))])
    ∧ (∀ v : PyVal, check_lightrag_health (Except.ok v) = format_response v false)
    ∧ (∀ e : PyExn, get_health (Except.error e) = Except.error e) := by
  refine ⟨?_, fun e => rfl, fun v => rfl, fun e => rfl⟩
  cases outcome with
  | ok v =>
      show isEnvelope (format_response v false) = true
      simp [isEnvelope, format_response_success_shape]
  | error e =>
      show isEnvelope (format_response
        (PyVal.pyStr ("Ошибка при проверке состояния LightRAG API: " ++ exnMessage e)) true) = true
      simp [isEnvelope, format_response_error_shape]

/-- C2 counterexample: the empty list is not rejected with an
InvalidArgument error; insert_text sends it to the batch-text route with
an empty texts field, contradicting the claim that neither route is
called. -/
theorem C2_counterexample_empty_list :
    insert_text (TextArg.listOf []) = InsertRoute.batchTexts [] := rfl

/-- C2 (amended): a single string is sent to the single-document insert
route, and every list of strings — the empty list included — is sent to
the batch-text route with the strings in their original order; no
emptiness validation is performed. -/
theorem C2_insert_text_routing :
    (∀ s, insert_text (TextArg.single s) = InsertRoute.singleDoc s)
    ∧ (∀ xs, insert_text (TextArg.listOf xs) = InsertRoute.batchTexts xs)
    ∧ (∀ s, routePath (insert_text (TextArg.single s)) = "/documents/text")
    ∧ (∀ xs, routePath (insert_text (TextArg.listOf xs)) = "/documents/texts") :=
  ⟨fun _ => rfl, fun _ => rfl, fun _ => rfl, fun _ => rfl⟩

/-- The gathering loop collects exactly the readable regular files, in
directory iteration order. -/
theorem gather_files_files (entries : List DirEntry) :
    (gather_files entries).files = readableFiles entries := by
  induction entries with
  | nil => rfl
  | cons e rest ih =>
      by_cases hf : e.isFile <;> by_cases hr : e.readable <;>
        simp [gather_files, readableFiles, List.filter_cons, hf, hr, ih]

/-- The gathering loop warns exactly about the unreadable regular files,
in directory iteration order. -/
theorem gather_files_warnings (entries : List DirEntry) :
    (gather_files entries).warnings = unreadableFiles entries := by
  induction entries with
  | nil => rfl
  | cons e rest ih =>
      by_cases hf : e.isFile <;> by_cases hr : e.readable <;>
        simp [gather_files, unreadableFiles, List.filter_cons, hf, hr, ih]

/-- Every handle the gathering loop opens is closed in its trace: the with
block closes each file as soon as its payload is recorded, so the opened
names and the closed names coincide. -/
theorem gather_files_balanced (entries : List DirEntry) :
    openedNames (gather_files entries).events = closedNames (gather_files entries).events := by
  induction entries with
  | nil => rfl
  | cons e rest ih =>
      by_cases hf : e.isFile <;> by_cases hr : e.readable <;>
        simp [gather_files, openedNames, closedNames, hf, hr, ih]

/-- C3: for every directory listing containing zero readable regular
files, insert_batch takes the distinguished no-documents branch, issues
zero HTTP calls, and the tool layer surfaces the outcome to the caller as
the fixed no-documents error envelope. -/
theorem C3_insert_batch_empty_dir (entries : List DirEntry)
    (apiOutcome : Except PyExn PyVal) (h : readableFiles entries = []) :
    insert_batch entries = BatchOutcome.noFiles
    ∧ insert_batch_http_calls entries = 0
    ∧ insert_batch_tool (insert_batch_facade entries apiOutcome)
      = PyVal.pyDict [("status", PyVal.pyStr "error"),
          ("error", PyVal.pyStr "Не удалось добавить документы из директории")] := by
  have h0 : insert_batch entries = BatchOutcome.noFiles := by
    simp only [insert_batch]
    rw [gather_files_files, h]
    rfl
  refine ⟨h0, ?_, ?_⟩
  · simp [insert_batch_http_calls, h0]
  · have hfac : insert_batch_facade entries apiOutcome = Except.ok PyVal.pyNone := by
      simp [insert_batch_facade, h0]
    rw [hfac]
    rfl

/-- C3 witness: a directory holding one unreadable regular file and one
subdirectory has zero readable regular files; on it insert_batch returns
the no-documents outcome, issues zero HTTP calls, and the tool surfaces
the no-documents error envelope. -/
theorem C3_insert_batch_empty_dir_witness :
    readableFiles
        [{ name := "locked.bin", isFile := true, readable := false },
         { name := "subdir", isFile := false, readable := true }] = []
    ∧ (insert_batch
          [{ name := "locked.bin", isFile := true, readable := false },
           { name := "subdir", isFile := false, readable := true }] = BatchOutcome.noFiles
       ∧ insert_batch_http_calls
          [{ name := "locked.bin", isFile := true, readable := false },
           { name := "subdir", isFile := false, readable := true }] = 0
       ∧ insert_batch_tool
          (insert_batch_facade
            [{ name := "locked.bin", isFile := true, readable := false },
             { name := "subdir", isFile := false, readable := true }]
            (Except.ok PyVal.pyNone))
        = PyVal.pyDict [("status", PyVal.pyStr "error"),
            ("error", PyVal.pyStr "Не удалось добавить документы из директории")]) :=
  ⟨rfl, C3_insert_batch_empty_dir _ _ rfl⟩

/-- C9: for every directory listing with at least one readable regular
file, insert_batch logs one warning per unreadable regular file, does not
abort, issues a single batch request carrying exactly the readable files
in directory iteration order, and every opened handle appears closed in
the gathering trace. -/
theorem C9_insert_batch_mixed_dir (entries : List DirEntry)
    (h : readableFiles entries ≠ []) :
    insert_batch entries = BatchOutcome.batchCall (readableFiles entries)
    ∧ (gather_files entries).warnings = unreadableFiles entries
    ∧ insert_batch_http_calls entries = 1
    ∧ openedNames (gather_files entries).events = closedNames (gather_files entries).events := by
  have h0 : insert_batch entries = BatchOutcome.batchCall (readableFiles entries) := by
    simp only [insert_batch]
    rw [gather_files_files]
    cases hre : readableFiles entries with
    | nil => exact absurd hre h
    | cons a as => simp [List.isEmpty]
  refine ⟨h0, gather_files_warnings entries, ?_, gather_files_balanced entries⟩
  simp [insert_batch_http_calls, h0]

/-- C9 witness: a directory with one unreadable and two readable regular
files produces exactly one warning naming the unreadable file, one batch
request carrying the two readable files in order, and a balanced
open/close trace. -/
theorem C9_insert_batch_mixed_dir_witness :
    insert_batch
        [{ name := "locked.bin", isFile := true, readable := false },
         { name := "a.txt", isFile := true, readable := true },
         { name := "b.txt", isFile := true, readable := true }]
      = BatchOutcome.batchCall ["a.txt", "b.txt"]
    ∧ (gather_files
        [{ name := "locked.bin", isFile := true, readable := false },
         { name := "a.txt", isFile := true, readable := true },
         { name := "b.txt", isFile := true, readable := true }]).warnings = ["locked.bin"]
    ∧ insert_batch_http_calls
        [{ name := "locked.bin", isFile := true, readable := false },
         { name := "a.txt", isFile := true, readable := true },
         { name := "b.txt", isFile := true, readable := true }] = 1
    ∧ openedNames (gather_files
        [{ name := "locked.bin", isFile := true, readable := false },
         { name := "a.txt", isFile := true, readable := true },
         { name := "b.txt", isFile := true, readable := true }]).events
      = closedNames (gather_files
        [{ name := "locked.bin", isFile := true, readable := false },
         { name := "a.txt", isFile := true, readable := true },
         { name := "b.txt", isFile := true, readable := true }]).events :=
  C9_insert_batch_mixed_dir _ (by decide)

/-- The startup probe logging step is one of the three log actions and in
particular never the client close action. -/
theorem healthProbeLog_ne_close (health : Except PyExn PyVal) :
    healthProbeLog health ≠ LcAction.closeClient := by
  cases health with
  | error e => simp [healthProbeLog]
  | ok v =>
      cases v with
      | pyNone => simp [healthProbeLog]
      | pyStr s => simp [healthProbeLog]
      | pyObj d i t => simp [healthProbeLog]
      | pyDict fields =>
          simp only [healthProbeLog]
          cases hg : dictGet fields "status" with
          | none => simp
          | some w =>
              cases w with
              | pyNone => simp
              | pyStr s => by_cases hs : s = "ok" <;> simp [hs]
              | pyDict f2 => simp
              | pyObj a b c => simp

/-- C4 counterexample: on the normal exit path of main, and on the
startup path of init_lightrag taken when the probe hits a connection
failure, the client close action never occurs — the lifecycle does not
release the connection before the process ends, contradicting the claim
that close is invoked on every exit path. -/
theorem C4_counterexample_no_close_on_exit :
    LcAction.closeClient ∉ main_trace RunOutcome.normal
    ∧ LcAction.closeClient
        ∉ init_lightrag false (Except.error (PyExn.transportError "Connection refused")) := by
  constructor
  · simp [main_trace]
  · simp [init_lightrag, healthProbeLog]

/-- C4 (amended): the facade method close does release the connection
resources of the HTTP client when invoked, but no exit path of the
application lifecycle invokes it: neither init_lightrag — in every
combination of the initialized flag and probe outcome, including the
startup-probe-failure path — nor any branch of main emits the close
action, so the connection is reclaimed only by process termination. -/
theorem C4_close_never_invoked (initialized : Bool) (health : Except PyExn PyVal)
    (o : RunOutcome) (c : HttpClientState) :
    LcAction.closeClient ∉ init_lightrag initialized health
    ∧ LcAction.closeClient ∉ main_trace o
    ∧ (client_close c).closed = true := by
  refine ⟨?_, ?_, rfl⟩
  · cases initialized with
    | true => simp [init_lightrag]
    | false =>
        simp [init_lightrag]
        exact fun hc => healthProbeLog_ne_close health hc.symm
  · cases o <;> simp [main_trace]

/-- C6: the process supervisor stop is a no-op with an empty action trace
when no process is running (in particular no signal is sent); on a running
process that the termination signal reaches and that exits within the
three second grace period it stops after the graceful wait; on one that
does not exit in time it logs the forced-kill warning, sends the kill
signal and blocks until exit; and when signal delivery fails because the
process is already gone the failure is caught and logged and the call
still completes its cleanup, treating the stop as success. -/
theorem C6_stop_behavior (m : ProcessManager) :
    (is_running m = false → stop m = (m, []))
    ∧ (∀ p : SupervisedProcess, m.process = some p → p.alive = true →
        p.termDeliverable = true → p.exitsWithinGrace = true →
        stop m = ({ process := none },
          [MgrAction.sigterm p.pid, MgrAction.waitGraceSeconds 3,
           MgrAction.closeStdoutStream, MgrAction.closeStderrStream,
           MgrAction.unregisterStopHook, MgrAction.logStopped]))
    ∧ (∀ p : SupervisedProcess, m.process = some p → p.alive = true →
        p.termDeliverable = true → p.exitsWithinGrace = false →
        stop m = ({ process := none },
          [MgrAction.sigterm p.pid, MgrAction.waitGraceSeconds 3, MgrAction.warnForcedKill,
           MgrAction.sigkill p.pid, MgrAction.waitUntilExit,
           MgrAction.closeStdoutStream, MgrAction.closeStderrStream,
           MgrAction.unregisterStopHook, MgrAction.logStopped]))
    ∧ (∀ p : SupervisedProcess, m.process = some p → p.alive = true →
        p.termDeliverable = false →
        stop m = ({ process := none },
          [MgrAction.sigterm p.pid, MgrAction.logStopError,
           MgrAction.closeStdoutStream, MgrAction.closeStderrStream,
           MgrAction.unregisterStopHook, MgrAction.logStopped])) := by
  obtain ⟨proc⟩ := m
  refine ⟨?_, ?_, ?_, ?_⟩
  · intro h
    cases proc with
    | none => rfl
    | some p =>
        simp [is_running] at h
        simp [stop, h]
  · intro p hp ha ht hg
    simp only at hp
    subst hp
    simp [stop, ha, ht, hg]
  · intro p hp ha ht hg
    simp only at hp
    subst hp
    simp [stop, ha, ht, hg]
  · intro p hp ha ht
    simp only at hp
    subst hp
    simp [stop, ha, ht]

/-- C6 witness: stopping a manager holding a live process with pid 7 that
ignores the termination signal past the grace period sends the
termination signal, waits three seconds, warns, sends the kill signal,
blocks until exit, then closes both streams, unregisters the hook and
clears the handle. -/
theorem C6_stop_behavior_witness :
    stop { process := some ⟨7, true, false, true⟩ }
      = ({ process := none },
         [MgrAction.sigterm 7, MgrAction.waitGraceSeconds 3, MgrAction.warnForcedKill,
          MgrAction.sigkill 7, MgrAction.waitUntilExit, MgrAction.closeStdoutStream,
          MgrAction.closeStderrStream, MgrAction.unregisterStopHook, MgrAction.logStopped]) :=
  (C6_stop_behavior _).2.2.1 _ rfl rfl rfl rfl

/-- C7: starting from a fresh manager, two consecutive start calls with no
intervening stop spawn exactly one subprocess: the first call records one
spawn, the second call records zero spawns, returns the handle spawned by
the first call unchanged, and leaves the manager state unchanged, so at
most one supervised process exists at a time. -/
theorem C7_start_idempotent_while_running (pid1 pid2 : Nat) (g1 d1 g2 d2 : Bool) :
    spawnCount (start { process := none } pid1 g1 d1).2.2 = 1
    ∧ spawnCount (start (start { process := none } pid1 g1 d1).1 pid2 g2 d2).2.2 = 0
    ∧ (start (start { process := none } pid1 g1 d1).1 pid2 g2 d2).2.1
      = (start { process := none } pid1 g1 d1).2.1
    ∧ (start (start { process := none } pid1 g1 d1).1 pid2 g2 d2).1
      = (start { process := none } pid1 g1 d1).1 :=
  ⟨rfl, rfl, rfl, rfl⟩

/-- C8 counterexample: the constructed client carries no explicit request
timeout, and the health check call is governed by exactly the same
timeout as the query data operation — not a materially shorter one,
contradicting the claimed five second versus 150-300 second split. -/
theorem C8_counterexample_health_timeout_equal :
    perCallTimeout (lightrag_client_init "http://localhost:9621" "") ApiOperation.getHealthOp
      = perCallTimeout (lightrag_client_init "http://localhost:9621" "") ApiOperation.query
    ∧ (lightrag_client_init "http://localhost:9621" "").timeout = none :=
  ⟨rfl, rfl⟩

/-- C8 (amended): every outbound call is governed by the single shared
client configuration; the constructor passes no timeout argument, so no
explicit request timeout is configured and the library default applies
uniformly — the health check uses exactly the same timeout as every data
operation. -/
theorem C8_uniform_timeout (base_url api_key : String) (op1 op2 : ApiOperation) :
    perCallTimeout (lightrag_client_init base_url api_key) op1
      = perCallTimeout (lightrag_client_init base_url api_key) op2
    ∧ (lightrag_client_init base_url api_key).timeout = none :=
  ⟨rfl, rfl⟩

end LightRagMcp
